import Mathlib

/-
Shallow embedding of the data-wrangling glue in the FLAML CO2 forecasting
notebook (notebook/flaml_forecast.ipynb).

The notebook pipeline is:
  1. data loader: fetch the CO2 series, resample to month starts taking the
     mean per month, fill missing values with data.fillna(data.bfill()),
     and turn the series into a two-column frame (index, co2);
  2. splitter: num_samples = data.shape[0]; time_horizon = 12;
     split_idx = num_samples - time_horizon; X_train = data[:split_idx];
     X_test = data[split_idx:][index column]; y_test = data[split_idx:][co2];
  3. forecast driver: automl.fit(dataframe=X_train, label=(index, co2),
     **settings, period=time_horizon) with the settings dictionary of cell 8;
  4. reporter: flaml_y_pred = automl.predict(X_test), metrics, plots.

Months are modelled as natural numbers (a month index), observed values as
rationals, and a possibly-missing cell as Option Value.  Python slices with
possibly negative bounds are modelled by pyIdx, which reproduces the clamping
and from-the-end interpretation of list slicing in Python.
-/

namespace FlamlForecast

abbrev Month := Nat

abbrev Value := ℚ

/-- Mean of the observations falling in month m, or none when the month has
no observation.  Models one cell of data.resample(MS).mean(). -/
def monthMean (obs : List (Month × Value)) (m : Month) : Option Value :=
  let vs := (obs.filter (fun o => o.1 = m)).map Prod.snd
  if vs.isEmpty then none else some (vs.sum / vs.length)

/-- Models data.resample(MS).mean(): one row per month from the earliest to
the latest observed month, holding the mean of that month when it has
observations and a missing cell otherwise. -/
def resampleMS (obs : List (Month × Value)) : List (Month × Option Value) :=
  match obs.map Prod.fst with
  | [] => []
  | m :: ms =>
    let lo := ms.foldl min m
    let hi := ms.foldl max m
    (List.range (hi + 1 - lo)).map (fun k => (lo + k, monthMean obs (lo + k)))

/-- Models Series.bfill(): each missing cell is replaced by the nearest
observed value after it, and stays missing when every later cell is missing
too. -/
def bfill : List (Option Value) → List (Option Value)
  | [] => []
  | some v :: xs => some v :: bfill xs
  | none :: xs => (bfill xs).headD none :: bfill xs

/-- Models a.fillna(b) for two aligned series: each missing cell of a is
replaced by the value b holds at the same position. -/
def fillna (a b : List (Option Value)) : List (Option Value) :=
  List.zipWith (fun x y => x.orElse (fun _ => y)) a b

/-- The fill step of the notebook, data.fillna(data.bfill()). -/
def fillMissing (s : List (Option Value)) : List (Option Value) :=
  fillna s (bfill s)

/-- The whole data-loader cell: resample to monthly means, run the fill
step, and pair every month with its (possibly still missing) value, as
to_frame().reset_index() does. -/
def loadData (obs : List (Month × Value)) : List (Month × Option Value) :=
  let r := resampleMS obs
  (r.map Prod.fst).zip (fillMissing (r.map Prod.snd))

/-- The forecast horizon of the notebook, time_horizon = 12. -/
def time_horizon : Nat := 12

/-- A possibly negative Python slice bound k over a sequence of length n:
negative bounds count from the end, and the result is clamped to [0, n] by
take and drop themselves. -/
def pyIdx (n : Nat) (k : Int) : Nat :=
  (if k < 0 then (n : Int) + k else k).toNat

/-- split_idx = num_samples - time_horizon, an int that is negative when the
series is shorter than the horizon. -/
def split_idx (data : List (Month × Option Value)) : Int :=
  (data.length : Int) - time_horizon

/-- X_train = data[:split_idx], a frame with the time and value columns. -/
def X_train (data : List (Month × Option Value)) : List (Month × Option Value) :=
  data.take (pyIdx data.length (split_idx data))

/-- X_test = data[split_idx:][index column], the dates for prediction. -/
def X_test (data : List (Month × Option Value)) : List Month :=
  (data.drop (pyIdx data.length (split_idx data))).map Prod.fst

/-- y_test = data[split_idx:][co2 column], the held out values. -/
def y_test (data : List (Month × Option Value)) : List (Option Value) :=
  (data.drop (pyIdx data.length (split_idx data))).map Prod.snd

/-- The settings dictionary of cell 8: every key the notebook puts in it,
and no others. -/
structure Settings where
  time_budget : Nat
  metric : String
  task : String
  log_file_name : String
  eval_method : String
  seed : Nat
deriving DecidableEq, Repr

/-- The literal settings the notebook builds: 180 second budget, mape
metric, forecast task, CO2_forecast.log log file, holdout validation, seed
7654321. -/
def settings : Settings :=
  ⟨180, "mape", "forecast", "CO2_forecast.log", "holdout", 7654321⟩

/-- The keyword arguments of the automl.fit call, besides the training
frame: the label pair, every key of the settings dictionary splatted in by
**settings, and period. -/
structure FitArgs where
  label : String × String
  time_budget : Nat
  metric : String
  task : String
  log_file_name : String
  eval_method : String
  seed : Nat
  period : Nat
deriving DecidableEq, Repr

/-- The fit call of cell 9: label=(index, co2), **settings,
period=time_horizon. -/
def fitArgs : FitArgs :=
  ⟨("index", "co2"), settings.time_budget, settings.metric, settings.task,
   settings.log_file_name, settings.eval_method, settings.seed, time_horizon⟩

/-- The fit arguments the glue code constructs on a given run: the
construction reads nothing but the literals of cells 5 and 8, so the run
index is ignored. -/
def fitArgsOfRun (_run : Nat) : FitArgs :=
  fitArgs

/-- A failure raised by one of the fallible steps of the notebook. -/
inductive PipelineError where
  | fetchFailure
  | fitFailure
  | predictFailure
  | logFailure
deriving DecidableEq, Repr

/-- The control flow of the notebook: the four fallible steps (data fetch,
fit, predict, log parsing) run in sequence, with no try/except anywhere, so
each step runs only when every earlier step succeeded. -/
def runNotebook {D M P L : Type}
    (fetch : Except PipelineError D)
    (fit : D → Except PipelineError M)
    (predict : M → Except PipelineError P)
    (parseLog : Except PipelineError L) :
    Except PipelineError (D × M × P × L) := do
  let d ← fetch
  let m ← fit d
  let p ← predict m
  let l ← parseLog
  pure (d, m, p, l)

/-- Forward fill with a running last observed value: each missing cell takes
the nearest observed value before it, when one exists. -/
def ffillFrom (prev : Option Value) : List (Option Value) → List (Option Value)
  | [] => []
  | some v :: xs => some v :: ffillFrom (some v) xs
  | none :: xs => prev :: ffillFrom prev xs

/-- The fill the spec describes, written from its words rather than from the
code: a missing entry is replaced by the nearest preceding observed value
when one exists, and by the nearest following observed value otherwise, as a
forward fill followed by a backward fill would do. -/
def specForwardBackFill (s : List (Option Value)) : List (Option Value) :=
  bfill (ffillFrom none s)

/-- A concrete resampled series of 5 rows, fewer than the horizon. -/
def series5 : List (Month × Option Value) :=
  [(0, some 330), (1, some 331), (2, some 332), (3, some 333), (4, some 334)]

/-- A concrete resampled series of 8 rows, fewer than the horizon but more
than half of it. -/
def series8 : List (Month × Option Value) :=
  [(0, some 330), (1, some 331), (2, some 332), (3, some 333),
   (4, some 334), (5, some 335), (6, some 336), (7, some 337)]

/-- A concrete resampled series of 14 rows with strictly increasing months. -/
def series14 : List (Month × Option Value) :=
  [(0, some 310), (1, some 311), (2, some 312), (3, some 313),
   (4, some 314), (5, some 315), (6, some 316), (7, some 317),
   (8, some 318), (9, some 319), (10, some 320), (11, some 321),
   (12, some 322), (13, some 323)]

/-- A concrete 13 row series. -/
def series13A : List (Month × Option Value) :=
  [(0, some 310), (1, some 311), (2, some 312), (3, some 313),
   (4, some 314), (5, some 315), (6, some 316), (7, some 317),
   (8, some 318), (9, some 319), (10, some 320), (11, some 321),
   (12, some 322)]

/-- The same 13 months as series13A with different held out values: the last
12 rows, the ones the splitter holds out, all differ. -/
def series13B : List (Month × Option Value) :=
  [(0, some 310), (1, none), (2, some 999), (3, some 998),
   (4, some 997), (5, none), (6, some 996), (7, some 995),
   (8, some 994), (9, some 993), (10, none), (11, some 992),
   (12, some 991)]

/-! Helper lemmas about the fill step and the split point. -/

theorem bfill_length (s : List (Option Value)) : (bfill s).length = s.length := by
  induction s with
  | nil => rfl
  | cons x xs ih => cases x <;> simp [bfill, ih]

theorem fillMissing_eq_bfill (s : List (Option Value)) : fillMissing s = bfill s := by
  induction s with
  | nil => rfl
  | cons x xs ih =>
    cases x with
    | none => simpa [fillMissing, fillna, bfill, Option.orElse] using ih
    | some v => simpa [fillMissing, fillna, bfill, Option.orElse] using ih

theorem fillMissing_length (s : List (Option Value)) :
    (fillMissing s).length = s.length := by
  rw [fillMissing_eq_bfill]; exact bfill_length s

theorem bfill_headD (s : List (Option Value)) :
    (bfill s).headD none = (s.filterMap id).head? := by
  induction s with
  | nil => rfl
  | cons x xs ih =>
    cases x with
    | none => simpa [bfill] using ih
    | some v => simp [bfill]

theorem bfill_getElem (s : List (Option Value)) (i : Nat) (h : i < s.length) :
    (bfill s)[i]? = some (((s.drop i).filterMap id).head?) := by
  induction s generalizing i with
  | nil => simp at h
  | cons x xs ih =>
    cases i with
    | zero =>
      cases x with
      | none =>
        show ((bfill xs).headD none :: bfill xs)[0]? =
          some ((((none :: xs).drop 0).filterMap id).head?)
        rw [List.getElem?_cons_zero, List.drop_zero,
          List.filterMap_cons_none (by rfl)]
        exact congrArg some (bfill_headD xs)
      | some v =>
        show (some v :: bfill xs)[0]? =
          some ((((some v :: xs).drop 0).filterMap id).head?)
        rw [List.getElem?_cons_zero, List.drop_zero,
          List.filterMap_cons_some (show id (some v) = some v from rfl)]
        rfl
    | succ n =>
      have h' : n < xs.length := by simpa using h
      cases x with
      | none => simpa [bfill] using ih n h'
      | some v => simpa [bfill] using ih n h'

theorem pyIdx_split_of_le (n : Nat) (h : time_horizon ≤ n) :
    pyIdx n ((n : Int) - time_horizon) = n - time_horizon := by
  simp only [pyIdx, time_horizon] at *
  split <;> omega

theorem pyIdx_split_of_lt (n : Nat) (h : n < time_horizon) :
    pyIdx n ((n : Int) - time_horizon) = 2 * n - time_horizon := by
  simp only [pyIdx, time_horizon] at *
  split <;> omega

theorem trainTestSplit_map_fst (data : List (Month × Option Value)) :
    (X_train data).map Prod.fst ++ X_test data = data.map Prod.fst := by
  unfold X_train X_test
  rw [List.map_take, List.map_drop, List.take_append_drop]

/-! Lemmas about the resampled series, justifying that the timestamps feeding
the splitter are strictly increasing month starts. -/

theorem resampleMS_sorted (obs : List (Month × Value)) :
    ((resampleMS obs).map Prod.fst).Pairwise (· < ·) := by
  unfold resampleMS
  cases obs.map Prod.fst with
  | nil => simp
  | cons m ms =>
    rw [List.map_map]
    exact List.Pairwise.map _ (fun a b hab => Nat.add_lt_add_left hab _)
      (List.pairwise_lt_range _)

theorem loadData_sorted (obs : List (Month × Value)) :
    ((loadData obs).map Prod.fst).Pairwise (· < ·) := by
  unfold loadData
  rw [List.map_fst_zip]
  · exact resampleMS_sorted obs
  · simp [fillMissing_length]

/-! Claim theorems. -/

/-- Claim C1, counterexample: the claim says every input series yields test
tables of exactly time_horizon = 12 rows, but a 5 row series yields X_test
and y_test of 5 rows each. -/
theorem testLength_counterexample :
    (X_test series5).length = 5 ∧ (y_test series5).length = 5 ∧
    (X_test series5).length ≠ time_horizon ∧
    (y_test series5).length ≠ time_horizon := by decide

/-- Claim C1, amended: for every input series with at least time_horizon =
12 rows, X_test and y_test each contain exactly 12 rows, taken from the end
of the resampled series. -/
theorem testLengthEqualsHorizon (data : List (Month × Option Value))
    (h : time_horizon ≤ data.length) :
    (X_test data).length = time_horizon ∧
    (y_test data).length = time_horizon ∧
    X_test data = (data.map Prod.fst).drop (data.length - time_horizon) ∧
    y_test data = (data.map Prod.snd).drop (data.length - time_horizon) := by
  have hk : pyIdx data.length (split_idx data) = data.length - time_horizon :=
    pyIdx_split_of_le data.length h
  unfold X_test y_test
  rw [hk, List.map_drop, List.map_drop]
  refine ⟨?_, ?_, rfl, rfl⟩ <;>
  · rw [List.length_drop, List.length_map]
    simp only [time_horizon] at *
    omega

/-- Claim C1, witness at a 14 row series. -/
theorem testLengthEqualsHorizon_witness :
    time_horizon ≤ series14.length ∧
    ((X_test series14).length = time_horizon ∧
     (y_test series14).length = time_horizon ∧
     X_test series14 = (series14.map Prod.fst).drop (series14.length - time_horizon) ∧
     y_test series14 = (series14.map Prod.snd).drop (series14.length - time_horizon)) :=
  ⟨by decide, testLengthEqualsHorizon series14 (by decide)⟩

/-- Claim C2: for every input series, the training rows followed by the test
rows (test timestamps paired again with the held out values) reproduce the
full resampled series in original order, hence with no gaps and no duplicate
rows beyond those of the series itself. -/
theorem trainTestConcat (data : List (Month × Option Value)) :
    X_train data ++ (X_test data).zip (y_test data) = data := by
  unfold X_train X_test y_test
  rw [List.zip_map']
  have hid : (fun a : Month × Option Value => (a.1, a.2)) = id :=
    funext fun a => rfl
  rw [hid, List.map_id, List.take_append_drop]

/-- Claim C3: the fill step does not remove a missing value at the end of
the resampled series: on the series 1, missing the fill returns it
unchanged, so a value of the test series stays missing, contradicting the
comment in the notebook that the fill makes sure there are no missing
values. -/
theorem fillKeepsTrailingMissing :
    fillMissing [some (1 : Value), none] = [some (1 : Value), none] ∧
    ¬ ∀ x ∈ fillMissing [some (1 : Value), none], x.isSome := by decide

/-- Claim C4, counterexample: on the series 1, missing, 3 the notebook fill
gives the middle cell the following value 3, while the forward/back fill the
claim describes would give it the preceding value 1. -/
theorem fill_counterexample :
    fillMissing [some (1 : Value), none, some 3] =
      [some (1 : Value), some 3, some 3] ∧
    specForwardBackFill [some (1 : Value), none, some 3] =
      [some (1 : Value), some 1, some 3] ∧
    fillMissing [some (1 : Value), none, some 3] ≠
      specForwardBackFill [some (1 : Value), none, some 3] := by decide

/-- Claim C4, amended: the fill step is exactly a backward fill: every cell
of the filled series holds the nearest observed value at or after its
position, so a missing entry is replaced by the nearest following observed
value when one exists and stays missing otherwise. -/
theorem fillIsBackfill (s : List (Option Value)) (i : Nat) (h : i < s.length) :
    fillMissing s = bfill s ∧
    (fillMissing s)[i]? = some (((s.drop i).filterMap id).head?) := by
  refine ⟨fillMissing_eq_bfill s, ?_⟩
  rw [fillMissing_eq_bfill]
  exact bfill_getElem s i h

/-- Claim C4, witness at the series 1, missing, 3 and position 1. -/
theorem fillIsBackfill_witness :
    1 < ([some (1 : Value), none, some 3] : List (Option Value)).length ∧
    (fillMissing [some (1 : Value), none, some 3] =
      bfill [some (1 : Value), none, some 3] ∧
     (fillMissing [some (1 : Value), none, some 3])[1]? =
      some ((([some (1 : Value), none, some 3].drop 1).filterMap id).head?)) :=
  ⟨by decide, fillIsBackfill [some (1 : Value), none, some 3] 1 (by decide)⟩

/-- Claim C5: when the resampled months are strictly increasing, every test
timestamp is strictly later than every training timestamp, the test
timestamps are exactly the contiguous slice of months directly following the
training rows, and no timestamp lies in both tables. -/
theorem trainTestOrdering (data : List (Month × Option Value))
    (hsorted : (data.map Prod.fst).Pairwise (· < ·)) :
    (∀ t1 ∈ (X_train data).map Prod.fst, ∀ t2 ∈ X_test data, t1 < t2) ∧
    (X_train data).map Prod.fst ++ X_test data = data.map Prod.fst ∧
    ∀ t ∈ (X_train data).map Prod.fst, t ∉ X_test data := by
  have hsplit := trainTestSplit_map_fst data
  have hpair : ((X_train data).map Prod.fst ++ X_test data).Pairwise (· < ·) := by
    rw [hsplit]; exact hsorted
  rw [List.pairwise_append] at hpair
  refine ⟨hpair.2.2, hsplit, ?_⟩
  intro t ht hmem
  exact lt_irrefl t (hpair.2.2 t ht t hmem)

/-- Claim C5, witness at a 14 row series with increasing months. -/
theorem trainTestOrdering_witness :
    (series14.map Prod.fst).Pairwise (· < ·) ∧
    ((∀ t1 ∈ (X_train series14).map Prod.fst, ∀ t2 ∈ X_test series14, t1 < t2) ∧
     (X_train series14).map Prod.fst ++ X_test series14 = series14.map Prod.fst ∧
     ∀ t ∈ (X_train series14).map Prod.fst, t ∉ X_test series14) :=
  ⟨by decide, trainTestOrdering series14 (by decide)⟩

/-- Claim C6: the fit call receives exactly the recognized options: label
pair (index, co2), time budget 180, metric mape, task forecast, log file
CO2_forecast.log, holdout validation, seed 7654321, and period equal to
time_horizon = 12; the structure FitArgs has no other field. -/
theorem settingsExact :
    settings = ⟨180, "mape", "forecast", "CO2_forecast.log", "holdout", 7654321⟩ ∧
    fitArgs = ⟨("index", "co2"), 180, "mape", "forecast", "CO2_forecast.log",
      "holdout", 7654321, 12⟩ ∧
    fitArgs.period = time_horizon ∧
    fitArgs.label = ("index", "co2") :=
  ⟨rfl, rfl, rfl, rfl⟩

/-- Claim C7: any two runs of the glue code construct the same fit
arguments, since the construction reads nothing but literals. -/
theorem settingsDeterministic (r1 r2 : Nat) :
    fitArgsOfRun r1 = fitArgsOfRun r2 := rfl

/-- Claim C8: the notebook catches nothing: whichever step is the first to
fail, its error is the result of the whole run, for the data fetch, the fit,
the predict and the log parsing steps alike. -/
theorem errorsPropagate {D M P L : Type}
    (fetch : Except PipelineError D) (fit : D → Except PipelineError M)
    (predict : M → Except PipelineError P) (parseLog : Except PipelineError L)
    (e : PipelineError) :
    (fetch = .error e →
      runNotebook fetch fit predict parseLog = .error e) ∧
    (∀ d, fetch = .ok d → fit d = .error e →
      runNotebook fetch fit predict parseLog = .error e) ∧
    (∀ d m, fetch = .ok d → fit d = .ok m → predict m = .error e →
      runNotebook fetch fit predict parseLog = .error e) ∧
    (∀ d m p, fetch = .ok d → fit d = .ok m → predict m = .ok p →
      parseLog = .error e →
      runNotebook fetch fit predict parseLog = .error e) := by
  refine ⟨?_, ?_, ?_, ?_⟩
  · intro hf; subst hf; rfl
  · intro d hf hft; subst hf
    simp only [runNotebook, Bind.bind, Except.bind, hft]
  · intro d m hf hft hp; subst hf
    simp only [runNotebook, Bind.bind, Except.bind, hft, hp]
  · intro d m p hf hft hp hl; subst hf
    simp only [runNotebook, Bind.bind, Except.bind, Functor.map, Except.map,
      hft, hp, hl]

/-- Claim C8, witness: a run whose fetch fails with fetchFailure returns
exactly that error. -/
theorem errorsPropagate_witness :
    runNotebook (Except.error PipelineError.fetchFailure)
      (fun d : Nat => Except.ok d) (fun m : Nat => Except.ok m)
      (Except.ok (0 : Nat)) = Except.error PipelineError.fetchFailure :=
  (errorsPropagate (Except.error PipelineError.fetchFailure)
    (fun d : Nat => Except.ok d) (fun m : Nat => Except.ok m)
    (Except.ok (0 : Nat)) PipelineError.fetchFailure).1 rfl

/-- Claim C9, counterexample: at an 8 row series split_idx = -4, and Python
slicing makes X_train the first 4 rows and X_test the last 4 rows, so
X_train is not empty and X_test is not the whole series of
min(num_samples, 12) = 8 rows, contrary to the claim. -/
theorem shortSeries_counterexample :
    (X_train series8).length = 4 ∧ (X_test series8).length = 4 ∧
    ¬ (X_train series8 = [] ∧ (X_test series8).length = series8.length) := by
  decide

/-- Claim C9, amended: when the series has fewer rows than the horizon,
split_idx is negative and counts from the end: X_train holds the first
2 * num_samples - 12 rows (clamped at zero, so empty exactly when
num_samples is at most 6), X_test holds the remaining last
min(12 - num_samples, num_samples) rows, and the test row count is strictly
smaller than the configured horizon. -/
theorem shortSeriesSplit (data : List (Month × Option Value))
    (h : data.length < time_horizon) :
    (X_train data).length = 2 * data.length - time_horizon ∧
    (X_test data).length = min (time_horizon - data.length) data.length ∧
    (X_test data).length < time_horizon ∧
    (X_train data = [] ↔ 2 * data.length ≤ time_horizon) := by
  have hk : pyIdx data.length (split_idx data) = 2 * data.length - time_horizon :=
    pyIdx_split_of_lt data.length h
  have hTrainLen : (X_train data).length = 2 * data.length - time_horizon := by
    unfold X_train
    rw [hk, List.length_take]
    simp only [time_horizon] at *
    omega
  have hTestLen : (X_test data).length =
      data.length - (2 * data.length - time_horizon) := by
    unfold X_test
    rw [List.length_map, List.length_drop, hk]
  refine ⟨hTrainLen, ?_, ?_, ?_⟩
  · rw [hTestLen]; simp only [time_horizon] at *; omega
  · rw [hTestLen]; simp only [time_horizon] at *; omega
  · rw [← List.length_eq_zero, hTrainLen]
    simp only [time_horizon] at *
    omega

/-- Claim C9, witness at the 8 row series. -/
theorem shortSeriesSplit_witness :
    series8.length < time_horizon ∧
    ((X_train series8).length = 2 * series8.length - time_horizon ∧
     (X_test series8).length = min (time_horizon - series8.length) series8.length ∧
     (X_test series8).length < time_horizon ∧
     (X_train series8 = [] ↔ 2 * series8.length ≤ time_horizon)) :=
  ⟨by decide, shortSeriesSplit series8 (by decide)⟩

/-- Claim C10: X_test is built from the timestamp column alone, so any two
series with the same months, however their held out values differ, give the
same X_test and hence the same predictions under any fixed predict
function. -/
theorem predictIgnoresHeldOut (predict : List Month → List Value)
    (d1 d2 : List (Month × Option Value))
    (h : d1.map Prod.fst = d2.map Prod.fst) :
    X_test d1 = X_test d2 ∧ predict (X_test d1) = predict (X_test d2) := by
  have hlen : d1.length = d2.length := by
    simpa using congrArg List.length h
  have hx : X_test d1 = X_test d2 := by
    unfold X_test split_idx
    rw [List.map_drop, List.map_drop, h, hlen]
  exact ⟨hx, congrArg predict hx⟩

/-- Claim C10, witness: two 13 row series sharing months but differing in
all 12 held out values give identical test tables and predictions. -/
theorem predictIgnoresHeldOut_witness :
    series13A.map Prod.fst = series13B.map Prod.fst ∧
    (X_test series13A = X_test series13B ∧
     (fun l : List Month => l.map (fun m => (m : Value))) (X_test series13A) =
     (fun l : List Month => l.map (fun m => (m : Value))) (X_test series13B)) :=
  ⟨by decide,
   predictIgnoresHeldOut (fun l => l.map (fun m => (m : Value)))
     series13A series13B (by decide)⟩

end FlamlForecast
